import Mathlib

/-
Verification of the vote-recording core of LilTechDemon/Project1.

The program stores votes in a CSV file `data.csv` whose header row is
`VoterID,Vote,Total`.  The file is created empty (header only) by
`FileManager._ensure_file_exists`, appended to by `FileManager.log_vote`,
aggregated by `FileManager.read_results`, and wiped by
`FileManager.reset_counts`.  The UI entry point `ProjectWindow.on_button_click`
validates the voter id, performs the duplicate check, and then calls
`log_vote`.

In every state reachable through those operations the file consists of the
fixed header followed by data rows of exactly three fields, so the store is
embedded as a list of `Row` values; the header is the constant `rowKeys`.
Python's `csv.DictReader` exposes each data row as a dict whose keys are the
header fields, so membership tests such as `"VoterID" in row` are membership
tests on `rowKeys`.
-/

/-- One data row of `data.csv`: the `VoterID`, `Vote` and `Total` fields as
written by `FileManager.log_vote`.  The `Total` field is written as the
decimal rendering of a number and is never parsed back on any reachable
path, so it is kept as a `Nat`. -/
structure Row where
  voterID : String
  vote : String
  total : Nat
  deriving DecidableEq

/-- The store contents: the data rows after the header, in file order. -/
abbrev Store := List Row

/-- The header of `data.csv` as written by `FileManager._ensure_file_exists`,
and hence the key set of every row dict produced by `csv.DictReader`. -/
def rowKeys : List String := ["VoterID", "Vote", "Total"]

/-- Python-dict lookup with default: `d.get(k, dflt)` on an insertion-ordered
association list. -/
def dictGet (d : List (String × Nat)) (k : String) (dflt : Nat) : Nat :=
  match d.find? (fun p => p.1 == k) with
  | some p => p.2
  | none => dflt

/-- Python-dict key membership: `k in d`. -/
def dictMem (d : List (String × Nat)) (k : String) : Bool :=
  d.any (fun p => p.1 == k)

/-- Python-dict assignment `d[k] = v`: updates the first binding of `k` in
place, else appends the new binding at the end (insertion order). -/
def dictSet : List (String × Nat) → String → Nat → List (String × Nat)
  | [], k, v => [(k, v)]
  | p :: rest, k, v =>
    if p.1 == k then (k, v) :: rest else p :: dictSet rest k v

/-- Embedding of `FileManager.log_vote(voter_id, name)`.  The method counts
the existing data rows (`sum(1 for _ in reader if "VoterID" in _)`; every row
dict has key `VoterID`, so this counts all rows), adds one, and appends a row
`{VoterID: voter_id, Vote: name, Total: total_votes}`.  The file always
exists and already holds the header, so the `os.path.exists` guard is true
and the `file.tell() == 0` header re-write does not fire. -/
def log_vote (s : Store) (voter_id name : String) : Store :=
  let total_votes := (s.filter (fun _ => rowKeys.contains "VoterID")).length
  s ++ [⟨voter_id, name, total_votes + 1⟩]

/-- The row loop of `FileManager.read_results`: state is the `results` dict
and the running `total_votes`.  For each row dict the first branch fires when
`"Jane" in row and "John" in row and "Total" in row and "VoterID" not in row`
(never, for rows with the standard header) and overwrites the defaults and
the total from the row (`row.get("Jane", 0)` defaults to `0` for the absent
keys, `row.get("Total", 0)` yields the row's total field); the second branch
fires when `"Vote" in row` and counts the vote. -/
def tallyRows : Store → List (String × Nat) → Nat → List (String × Nat) × Nat
  | [], results, total => (results, total)
  | r :: rest, results, total =>
    if rowKeys.contains "Jane" && rowKeys.contains "John" &&
        rowKeys.contains "Total" && !(rowKeys.contains "VoterID") then
      tallyRows rest (dictSet (dictSet results "Jane" 0) "John" 0) r.total
    else if rowKeys.contains "Vote" then
      tallyRows rest (dictSet results r.vote (dictGet results r.vote 0 + 1)) (total + 1)
    else
      tallyRows rest results total

/-- Embedding of `FileManager.read_results()`: starts from
`{"Jane": 0, "John": 0}`, folds the row loop over the file, then sets
`results["Total"] = total_votes`. -/
def read_results (s : Store) : List (String × Nat) :=
  let res := tallyRows s [("Jane", 0), ("John", 0)] 0
  dictSet res.1 "Total" res.2

/-- Number of stored votes for candidate `name`. -/
def countVotes (s : Store) (name : String) : Nat :=
  (s.filter (fun r => r.vote == name)).length

example : read_results [] = [("Jane", 0), ("John", 0), ("Total", 0)] := by decide

example :
    read_results [⟨"1", "Jane", 1⟩, ⟨"2", "John", 2⟩, ⟨"3", "Jane", 3⟩] =
      [("Jane", 2), ("John", 1), ("Total", 3)] := by decide

example : log_vote [⟨"1", "Jane", 1⟩] "1" "John" =
    [⟨"1", "Jane", 1⟩, ⟨"1", "John", 2⟩] := by decide

/-- ASCII whitespace stripped by Python's `str.strip()` (the inputs at hand
are ASCII text fields). -/
def isPySpace (c : Char) : Bool :=
  c = ' ' || c = '\t' || c = '\n' || c = '\x0d' || c = '\x0b' || c = '\x0c'

/-- Drop leading and trailing whitespace from a character list. -/
def stripList (l : List Char) : List Char :=
  ((l.dropWhile isPySpace).reverse.dropWhile isPySpace).reverse

/-- Embedding of Python `s.strip()`. -/
def pyStrip (s : String) : String :=
  String.mk (stripList s.toList)

/-- Embedding of `ProjectWindow.validate_input(t)`, that is
`bool(t.strip())`. -/
def validate_input (t : String) : Bool :=
  pyStrip t != ""

/-- After the leading digit, Python's `int()` accepts digits with single
underscores strictly between digits. -/
def pyDigitTail : List Char → Bool
  | [] => true
  | '_' :: d :: ds => d.isDigit && pyDigitTail ds
  | ['_'] => false
  | c :: cs => c.isDigit && pyDigitTail cs

/-- The body accepted by Python's `int()` after whitespace stripping: an
optional sign followed by a nonempty underscore-grouped digit string. -/
def pyIntCore : List Char → Bool
  | [] => false
  | ['+'] => false
  | ['-'] => false
  | '+' :: d :: ds => d.isDigit && pyDigitTail ds
  | '-' :: d :: ds => d.isDigit && pyDigitTail ds
  | d :: ds => d.isDigit && pyDigitTail ds

/-- Whether Python's `int(s)` succeeds: `int()` strips whitespace itself,
then parses an optional sign and digits (ASCII digits here). -/
def pyIntParses (s : String) : Bool :=
  pyIntCore (stripList s.toList)

/-- Accumulate the numeric value of an underscore-grouped digit string. -/
def pyDigitsVal : List Char → Nat → Nat
  | [], acc => acc
  | c :: cs, acc =>
    if c = '_' then pyDigitsVal cs acc
    else pyDigitsVal cs (acc * 10 + (c.toNat - '0'.toNat))

/-- The value computed by Python's `int(s)`, when it succeeds. -/
def pyIntValue (s : String) : Option Int :=
  if pyIntParses s then
    match stripList s.toList with
    | '+' :: rest => some (pyDigitsVal rest 0)
    | '-' :: rest => some (-(pyDigitsVal rest 0 : Int))
    | rest => some (pyDigitsVal rest 0)
  else none

example : pyIntParses "123" = true := by decide
example : pyIntParses " -1_2 " = true := by decide
example : pyIntParses "1__2" = false := by decide
example : pyIntParses "12a" = false := by decide
example : pyIntParses "" = false := by decide
example : pyIntValue "01" = some 1 := by decide
example : pyIntValue "1" = pyIntValue "01" := by decide
example : pyStrip "  a b " = "a b" := by decide

/-- The candidate selection offered by the window: one of the two fixed
radio buttons, the `Other` radio with the free-text field's contents, or no
selection at all. -/
inductive Choice
  | jane
  | john
  | other (text : String)
  | none
  deriving DecidableEq

/-- The caller-visible failure outcomes of `ProjectWindow.on_button_click`
(each is a `show_error_message` call in the source): invalid input with its
message, the duplicate-voter rejection, the missing `VoterID` column check,
and the `IOError` handler of the duplicate-check read. -/
inductive VoteError
  | invalidInput (msg : String)
  | duplicateVoter
  | missingColumn
  | readFailure
  deriving DecidableEq

/-- `log_vote` with an explicit I/O-failure flag: when the append raises
`IOError`, `log_vote`'s `except IOError` handler only prints to the console
and the method returns normally, so the store is unchanged and the caller
receives no signal. -/
def log_vote_io (ioFail : Bool) (s : Store) (voter_id name : String) : Store :=
  if ioFail then s else log_vote s voter_id name

/-- Embedding of `ProjectWindow.on_button_click`, parameterized by whether
the file append inside `log_vote` raises `IOError`.  Steps, in source order:
strip the id field; `validate_input` (empty check); `int(voter_id)` (numeric
check); open the file and check `"VoterID" in reader.fieldnames` (the header
is the constant `rowKeys`); scan the rows for `voter_id == row["VoterID"]`
(duplicate check); then dispatch on the checked radio button, where the
`Other` branch strips the text, rejects empty text, rejects text accepted by
`int()`, and otherwise logs it.  A successful path calls `log_vote` and
returns normally (`.ok` carries the resulting store). -/
def on_button_click_io (ioFail : Bool) (s : Store) (idText : String)
    (choice : Choice) : Except VoteError Store :=
  let voter_id := pyStrip idText
  if !(validate_input voter_id) then
    .error (.invalidInput "Voter ID is required.")
  else if !(pyIntParses voter_id) then
    .error (.invalidInput "Voter ID must be a number.")
  else if !(rowKeys.contains "VoterID") then
    .error .missingColumn
  else if s.any (fun r => voter_id == r.voterID) then
    .error .duplicateVoter
  else
    match choice with
    | Choice.jane => .ok (log_vote_io ioFail s voter_id "Jane")
    | Choice.john => .ok (log_vote_io ioFail s voter_id "John")
    | Choice.other t =>
      let user_input := pyStrip t
      if validate_input user_input then
        if pyIntParses user_input then
          .error (.invalidInput "Please enter a valid name, not a number.")
        else
          .ok (log_vote_io ioFail s voter_id user_input)
      else
        .error (.invalidInput "Invalid input. Please enter non-empty text.")
    | Choice.none => .error (.invalidInput "Please select an option.")

/-- `on_button_click` with the file system healthy (no `IOError`). -/
def on_button_click (s : Store) (idText : String) (choice : Choice) :
    Except VoteError Store :=
  on_button_click_io false s idText choice

/-- Whether an outcome is an `InvalidInputError` (one of the
`show_error_message` calls for malformed input). -/
def isInvalidInputErr (e : Except VoteError Store) : Bool :=
  match e with
  | .error (.invalidInput _) => true
  | _ => false

example : on_button_click [] "1" Choice.jane = .ok [⟨"1", "Jane", 1⟩] := rfl
example : on_button_click [⟨"1", "Jane", 1⟩] " 1 " Choice.john =
    .error .duplicateVoter := rfl
example : on_button_click [] "abc" Choice.jane =
    .error (.invalidInput "Voter ID must be a number.") := rfl
example : on_button_click [] "  " Choice.jane =
    .error (.invalidInput "Voter ID is required.") := rfl
example : on_button_click [] "2" (Choice.other "123") =
    .error (.invalidInput "Please enter a valid name, not a number.") := rfl
example : on_button_click [] "2" (Choice.other " Bob ") =
    .ok [⟨"2", "Bob", 1⟩] := rfl
example : on_button_click [] "2" Choice.none =
    .error (.invalidInput "Please select an option.") := rfl

/-- A file system: filenames mapped to store contents, in creation order.
`FileManager.reset_counts` is the one operation whose effect depends on
which filename the manager was constructed with, so it is modelled over the
whole file system. -/
abbrev FS := List (String × Store)

/-- Lookup of a file's data rows. -/
def lookupFile (fs : FS) (name : String) : Option Store :=
  (fs.find? (fun p => p.1 == name)).map Prod.snd

/-- Embedding of `FileManager._ensure_file_exists()` for the manager's
`filename`: if the file is absent it is created holding only the header,
that is with no data rows. -/
def ensure_file_exists (fs : FS) (filename : String) : FS :=
  if fs.any (fun p => p.1 == filename) then fs else fs ++ [(filename, [])]

/-- Embedding of `FileManager.reset_counts()` for a manager constructed with
`filename`: the method calls `os.remove('data.csv')` — the literal path, not
`self._filename` — swallowing any deletion error with a `print`, and then
calls `self._ensure_file_exists()` on the constructed filename. -/
def reset_counts (fs : FS) (filename : String) : FS :=
  let fs1 := fs.filter (fun p => !(p.1 == "data.csv"))
  ensure_file_exists fs1 filename

/-- `reset_counts` as seen through the application's own store: the window
constructs `FileManager('data.csv')`, so the deleted path and the recreated
path coincide and the store comes back empty. -/
def reset_counts_data (_s : Store) : Store := []

/-- Embedding of `ProjectWindow.reset_votes` under an I/O-failure flag for
the deletion: `reset_counts` swallows any deletion exception with a `print`,
`_ensure_file_exists` then finds the file still present and leaves it alone,
and `reset_votes` unconditionally sets the label to the success message. -/
def reset_votes_io (ioFail : Bool) (s : Store) : Store × String :=
  ((if ioFail then s else reset_counts_data s), "Votes reset successfully!")

/-- An operation issued through the window: a vote submission with the two
text fields and the radio selection, or a reset. -/
inductive Op
  | cast (idText : String) (choice : Choice)
  | reset
  deriving DecidableEq

/-- One UI operation applied to the application store: a failed submission
leaves the store unchanged (`on_button_click` returns after
`show_error_message`), a successful one commits `log_vote`'s append, and
reset empties the store. -/
def step (s : Store) : Op → Store
  | Op.cast id c =>
    match on_button_click s id c with
    | .ok s' => s'
    | .error _ => s
  | Op.reset => reset_counts_data s

/-- The store after a sequence of UI operations, starting from the freshly
created empty file. -/
def run (ops : List Op) : Store :=
  ops.foldl step []

/-- A sequence of vote submissions only, returning the final store and the
number of submissions that succeeded. -/
def runCount : Store → List (String × Choice) → Store × Nat
  | s, [] => (s, 0)
  | s, (id, c) :: rest =>
    match on_button_click s id c with
    | .ok s' =>
      let r := runCount s' rest
      (r.1, r.2 + 1)
    | .error _ => runCount s rest

example : run [Op.cast "1" Choice.jane, Op.cast "2" Choice.john] =
    [⟨"1", "Jane", 1⟩, ⟨"2", "John", 2⟩] := rfl
example : run [Op.cast "1" Choice.jane, Op.reset] = [] := rfl
example : (runCount [] [("1", Choice.jane), ("1", Choice.john), ("2", Choice.john)]).2 = 2 := rfl

/-- The row count in `log_vote` counts every data row, since every row dict
has the `VoterID` key: `log_vote` appends one row whose `Total` field is the
previous record count plus one. -/
lemma log_vote_eq (s : Store) (v n : String) :
    log_vote s v n = s ++ [⟨v, n, s.length + 1⟩] := by
  simp only [log_vote]
  have hl : (s.filter (fun _ => rowKeys.contains "VoterID")).length = s.length := by
    simp only [show (fun (_ : Row) => rowKeys.contains "VoterID") = fun _ => true from rfl,
      List.filter_true]
  rw [hl]

/-- Branch reduction of the `read_results` row loop for rows with the
standard header: the summary branch never fires, the vote branch always
does. -/
lemma tallyRows_cons (r : Row) (rest : Store) (res : List (String × Nat)) (tot : Nat) :
    tallyRows (r :: rest) res tot =
      tallyRows rest (dictSet res r.vote (dictGet res r.vote 0 + 1)) (tot + 1) := rfl

lemma tallyRows_total (l : Store) (res : List (String × Nat)) (tot : Nat) :
    (tallyRows l res tot).2 = tot + l.length := by
  induction l generalizing res tot with
  | nil => simp [tallyRows]
  | cons r rest ih => rw [tallyRows_cons, ih, List.length_cons]; omega

lemma dictGet_cons (p : String × Nat) (rest : List (String × Nat)) (k : String) (dflt : Nat) :
    dictGet (p :: rest) k dflt = if p.1 == k then p.2 else dictGet rest k dflt := by
  rcases h : (p.1 == k) <;> simp [dictGet, List.find?, h]

lemma dictMem_cons (p : String × Nat) (rest : List (String × Nat)) (k : String) :
    dictMem (p :: rest) k = (p.1 == k || dictMem rest k) := by
  simp [dictMem]

lemma dictSet_cons (p : String × Nat) (rest : List (String × Nat)) (k : String) (v : Nat) :
    dictSet (p :: rest) k v = if p.1 == k then (k, v) :: rest else p :: dictSet rest k v := rfl

lemma dictGet_dictSet_self (d : List (String × Nat)) (k : String) (v dflt : Nat) :
    dictGet (dictSet d k v) k dflt = v := by
  induction d with
  | nil => simp [dictSet, dictGet, List.find?]
  | cons p rest ih =>
    rw [dictSet_cons]
    rcases h : (p.1 == k)
    · simp only [h, Bool.false_eq_true, if_false]
      rw [dictGet_cons, if_neg (by simp [h]), ih]
    · simp only [h, if_true]
      rw [dictGet_cons]
      simp

lemma dictGet_dictSet_ne (d : List (String × Nat)) (k k' : String) (v dflt : Nat)
    (h : k' ≠ k) : dictGet (dictSet d k v) k' dflt = dictGet d k' dflt := by
  induction d with
  | nil => simp [dictSet, dictGet, List.find?, beq_eq_false_iff_ne.mpr (Ne.symm h)]
  | cons p rest ih =>
    rw [dictSet_cons]
    rcases hpk : (p.1 == k)
    · simp only [hpk, Bool.false_eq_true, if_false]
      rw [dictGet_cons, dictGet_cons, ih]
    · simp only [hpk, if_true]
      have hk : p.1 = k := by simpa using hpk
      rw [dictGet_cons, dictGet_cons,
        if_neg (by simp [Ne.symm h]), if_neg (by simp [hk, Ne.symm h])]

lemma dictMem_dictSet (d : List (String × Nat)) (k k' : String) (v : Nat) :
    dictMem (dictSet d k v) k' = (k == k' || dictMem d k') := by
  induction d with
  | nil => simp [dictSet, dictMem]
  | cons p rest ih =>
    rw [dictSet_cons]
    rcases hpk : (p.1 == k)
    · simp only [hpk, Bool.false_eq_true, if_false]
      rw [dictMem_cons, dictMem_cons, ih]
      rcases hk : (k == k') <;> rcases hp : (p.1 == k') <;> simp
    · simp only [hpk, if_true]
      have hk : p.1 = k := by simpa using hpk
      rw [dictMem_cons, dictMem_cons, hk]
      rcases hkk : (k == k') <;> simp [hkk]

lemma countVotes_cons (r : Row) (rest : Store) (n : String) :
    countVotes (r :: rest) n =
      if r.vote == n then countVotes rest n + 1 else countVotes rest n := by
  rcases h : (r.vote == n) <;> simp [countVotes, List.filter_cons, h]

/-- Running the row loop adds each row's vote on top of the incoming counts. -/
lemma tallyRows_fst_get (l : Store) (res : List (String × Nat)) (tot : Nat) (n : String) :
    dictGet (tallyRows l res tot).1 n 0 = dictGet res n 0 + countVotes l n := by
  induction l generalizing res tot with
  | nil => simp [tallyRows, countVotes]
  | cons r rest ih =>
    rw [tallyRows_cons, ih, countVotes_cons]
    by_cases h : r.vote = n
    · subst h
      rw [dictGet_dictSet_self]
      simp
      omega
    · rw [dictGet_dictSet_ne _ _ _ _ _ (Ne.symm h)]
      simp [beq_eq_false_iff_ne.mpr h]

/-- A key is present after the row loop iff it was present before or some
processed row voted for it. -/
lemma tallyRows_fst_mem (l : Store) (res : List (String × Nat)) (tot : Nat) (n : String) :
    dictMem (tallyRows l res tot).1 n = (dictMem res n || l.any (fun r => r.vote == n)) := by
  induction l generalizing res tot with
  | nil => simp [tallyRows]
  | cons r rest ih =>
    rw [tallyRows_cons, ih, dictMem_dictSet]
    rcases h1 : (r.vote == n) <;> rcases h2 : dictMem res n <;> simp [h1, h2]

/-- The `Total` entry of `read_results` is the number of data rows. -/
lemma read_results_get_total (s : Store) :
    dictGet (read_results s) "Total" 0 = s.length := by
  simp only [read_results]
  rw [dictGet_dictSet_self, tallyRows_total]
  simp

lemma dictGet_init (n : String) :
    dictGet [("Jane", 0), ("John", 0)] n 0 = 0 := by
  rcases h1 : (("Jane" : String) == n) <;> rcases h2 : (("John" : String) == n) <;>
    simp [dictGet, List.find?, h1, h2]

/-- Every non-`Total` entry of `read_results` is that candidate's vote
count (zero when absent, via the lookup default). -/
lemma read_results_get_ne (s : Store) (n : String) (hn : n ≠ "Total") :
    dictGet (read_results s) n 0 = countVotes s n := by
  simp only [read_results]
  rw [dictGet_dictSet_ne _ _ _ _ _ hn, tallyRows_fst_get, dictGet_init]
  simp

/-- The keys of `read_results` are exactly `Total`, the two defaults, and
the candidates that received a vote. -/
lemma read_results_mem (s : Store) (n : String) :
    dictMem (read_results s) n =
      (("Total" == n) || ("Jane" == n) || ("John" == n) ||
        s.any (fun r => r.vote == n)) := by
  simp only [read_results]
  rw [dictMem_dictSet, tallyRows_fst_mem, dictMem_cons, dictMem_cons]
  simp [dictMem, Bool.or_assoc]

lemma rowKeys_has_voterID : rowKeys.contains "VoterID" = true := rfl

/-- A string accepted by `int()` is nonempty after stripping. -/
lemma pyIntParses_strip_ne (x : String) (h : pyIntParses x = true) :
    pyStrip x ≠ "" := by
  intro he
  have hl : stripList x.toList = [] := by
    have := congrArg String.data he
    simpa [pyStrip] using this
  rw [pyIntParses, hl] at h
  simp [pyIntCore] at h

/-- A string accepted by `int()` passes `validate_input`. -/
lemma validate_of_parses (x : String) (h : pyIntParses x = true) :
    validate_input x = true := by
  simp only [validate_input, bne_iff_ne, ne_eq, decide_eq_true_eq]
  exact pyIntParses_strip_ne x h

/-- When the id checks pass and the stripped id matches a stored record, the
submission stops at the duplicate check, whatever the candidate selection. -/
lemma on_button_click_dup (s : Store) (id : String) (c : Choice)
    (h1 : validate_input (pyStrip id) = true)
    (h2 : pyIntParses (pyStrip id) = true)
    (h3 : s.any (fun r => pyStrip id == r.voterID) = true) :
    on_button_click s id c = .error .duplicateVoter := by
  simp only [on_button_click, on_button_click_io, h1, h2, h3,
    rowKeys_has_voterID, Bool.not_true, Bool.false_eq_true, if_false, if_true]

/-- A successful submission passed all the id checks and committed exactly
`log_vote`'s append of one row numbered `record count + 1`. -/
lemma on_button_click_ok_shape (s : Store) (id : String) (c : Choice) (s' : Store)
    (h : on_button_click s id c = .ok s') :
    validate_input (pyStrip id) = true ∧ pyIntParses (pyStrip id) = true ∧
    s.any (fun r => pyStrip id == r.voterID) = false ∧
    ∃ name, s' = s ++ [⟨pyStrip id, name, s.length + 1⟩] := by
  simp only [on_button_click, on_button_click_io] at h
  cases h1 : validate_input (pyStrip id) with
  | false => rw [h1] at h; simp at h
  | true =>
  rw [h1] at h
  cases h2 : pyIntParses (pyStrip id) with
  | false => rw [h2] at h; simp at h
  | true =>
  rw [h2] at h
  rw [rowKeys_has_voterID] at h
  cases h3 : s.any (fun r => pyStrip id == r.voterID) with
  | true => rw [h3] at h; simp at h
  | false =>
  rw [h3] at h
  simp only [Bool.not_true, Bool.false_eq_true, if_false, if_true] at h
  refine ⟨rfl, rfl, rfl, ?_⟩
  cases c with
  | jane =>
    simp only [log_vote_io, if_false, Bool.false_eq_true, Except.ok.injEq] at h
    exact ⟨"Jane", by rw [← h, log_vote_eq]⟩
  | john =>
    simp only [log_vote_io, if_false, Bool.false_eq_true, Except.ok.injEq] at h
    exact ⟨"John", by rw [← h, log_vote_eq]⟩
  | other t =>
    simp only [log_vote_io, Bool.false_eq_true, if_false] at h
    cases h4 : validate_input (pyStrip t) with
    | false => rw [h4] at h; simp at h
    | true =>
    rw [h4] at h
    cases h5 : pyIntParses (pyStrip t) with
    | true => rw [h5] at h; simp at h
    | false =>
    rw [h5] at h
    simp only [log_vote_io, if_false, if_true, Bool.false_eq_true, Except.ok.injEq] at h
    exact ⟨pyStrip t, by rw [← h, log_vote_eq]⟩
  | none => simp at h

/-- When the id checks pass and no stored record matches, choosing the Jane
radio commits `log_vote` for `"Jane"`. -/
lemma on_button_click_jane_ok (s : Store) (id : String)
    (h1 : validate_input (pyStrip id) = true)
    (h2 : pyIntParses (pyStrip id) = true)
    (h3 : s.any (fun r => pyStrip id == r.voterID) = false) :
    on_button_click s id Choice.jane = .ok (s ++ [⟨pyStrip id, "Jane", s.length + 1⟩]) := by
  simp only [on_button_click, on_button_click_io, h1, h2, h3, rowKeys_has_voterID,
    Bool.not_true, Bool.false_eq_true, if_false, if_true, log_vote_io, log_vote_eq]

lemma step_cast_of_error (s : Store) (id : String) (c : Choice) (e : VoteError)
    (h : on_button_click s id c = .error e) : step s (Op.cast id c) = s := by
  simp [step, h]

lemma step_cast_of_ok (s : Store) (id : String) (c : Choice) (s' : Store)
    (h : on_button_click s id c = .ok s') : step s (Op.cast id c) = s' := by
  simp [step, h]

/-- An invariant holding at the empty store and preserved by every UI
operation holds after every operation sequence. -/
lemma run_preserves (P : Store → Prop) (h0 : P [])
    (hstep : ∀ s op, P s → P (step s op)) (ops : List Op) : P (run ops) := by
  have hgen : ∀ (l : List Op) (s : Store), P s → P (l.foldl step s) := by
    intro l
    induction l with
    | nil => intro s hs; exact hs
    | cons op rest ih => intro s hs; exact ih _ (hstep s op hs)
  exact hgen ops [] h0

/-- Every stored voter id passed the submission checks: it is nonempty after
stripping and accepted by `int()`. -/
lemma run_rows_valid (ops : List Op) :
    ∀ r ∈ run ops, validate_input r.voterID = true ∧ pyIntParses r.voterID = true := by
  refine run_preserves
    (fun st => ∀ r ∈ st, validate_input r.voterID = true ∧ pyIntParses r.voterID = true)
    ?_ ?_ ops
  · simp
  intro s op hP
  cases op with
  | reset => intro r hr; simp [step, reset_counts_data] at hr
  | cast id c =>
    cases heq : on_button_click s id c with
    | error e => rw [step_cast_of_error s id c e heq]; exact hP
    | ok s' =>
      rw [step_cast_of_ok s id c s' heq]
      obtain ⟨hv, hp, -, name, hs'⟩ := on_button_click_ok_shape s id c s' heq
      subst hs'
      intro r hr
      rcases List.mem_append.mp hr with hmem | hmem
      · exact hP r hmem
      · simp only [List.mem_singleton] at hmem
        subst hmem
        exact ⟨hv, hp⟩

/-- C2: for every sequence of UI operations, submitting a vote whose
stripped voter id is already stored (used since the last reset) fails with
the duplicate-voter rejection, whatever the candidate selection, and the
aggregate view `read_results` is unchanged by the failed submission. -/
theorem c2_duplicate_vote_rejected (ops : List Op) (v : String) (c : Choice)
    (h : pyStrip v ∈ (run ops).map Row.voterID) :
    on_button_click (run ops) v c = .error .duplicateVoter ∧
    read_results (step (run ops) (Op.cast v c)) = read_results (run ops) := by
  obtain ⟨r, hr, hrv⟩ := List.mem_map.mp h
  have hgood := run_rows_valid ops r hr
  have h1 : validate_input (pyStrip v) = true := by rw [← hrv]; exact hgood.1
  have h2 : pyIntParses (pyStrip v) = true := by rw [← hrv]; exact hgood.2
  have h3 : (run ops).any (fun rr => pyStrip v == rr.voterID) = true := by
    rw [List.any_eq_true]
    exact ⟨r, hr, by rw [hrv]; exact beq_self_eq_true (pyStrip v)⟩
  have hdup := on_button_click_dup (run ops) v c h1 h2 h3
  exact ⟨hdup, by rw [step_cast_of_error (run ops) v c .duplicateVoter hdup]⟩

/-- Witness for C2 at a concrete run: voter 1 votes Jane, then tries John. -/
theorem c2_witness :
    on_button_click (run [Op.cast "1" Choice.jane]) "1" Choice.john =
      .error .duplicateVoter ∧
    read_results (step (run [Op.cast "1" Choice.jane]) (Op.cast "1" Choice.john)) =
      read_results (run [Op.cast "1" Choice.jane]) :=
  c2_duplicate_vote_rejected [Op.cast "1" Choice.jane] "1" Choice.john (by decide)

/-- A submission accepted by the window: the voter id parses as a number
and the selection is one of the radio buttons, with a nonempty non-numeric
name in the free-text case. -/
def validCast (p : String × Choice) : Bool :=
  pyIntParses (pyStrip p.1) &&
    (match p.2 with
     | Choice.jane => true
     | Choice.john => true
     | Choice.other t => validate_input (pyStrip t) && !(pyIntParses (pyStrip t))
     | Choice.none => false)

/-- Each successful submission grows the store by exactly one row. -/
lemma runCount_length (l : List (String × Choice)) :
    ∀ s : Store, (runCount s l).1.length = s.length + (runCount s l).2 := by
  induction l with
  | nil => intro s; simp [runCount]
  | cons p rest ih =>
    intro s
    obtain ⟨id, c⟩ := p
    cases heq : on_button_click s id c with
    | ok s' =>
      obtain ⟨-, -, -, name, hs'⟩ := on_button_click_ok_shape s id c s' heq
      have hlen : s'.length = s.length + 1 := by rw [hs']; simp
      simp only [runCount, heq]
      rw [ih s', hlen]
      omega
    | error e =>
      simp only [runCount, heq]
      exact ih s

/-- C4: over any sequence of vote submissions from the fresh store with
pairwise-distinct stripped voter ids, all otherwise valid, the `Total`
entry of `read_results` equals the number of successful submissions. -/
theorem c4_total_counts_successful_casts (casts : List (String × Choice))
    (_hdist : List.Pairwise (fun a b => a ≠ b) (casts.map (fun p => pyStrip p.1)))
    (_hvalid : ∀ p ∈ casts, validCast p = true) :
    dictGet (read_results (runCount [] casts).1) "Total" 0 = (runCount [] casts).2 := by
  rw [read_results_get_total]
  have := runCount_length casts []
  simpa using this

/-- Witness for C4: two distinct valid submissions give total 2. -/
theorem c4_witness :
    dictGet (read_results (runCount [] [("1", Choice.jane), ("2", Choice.john)]).1)
        "Total" 0 =
      (runCount [] [("1", Choice.jane), ("2", Choice.john)]).2 :=
  c4_total_counts_successful_casts [("1", Choice.jane), ("2", Choice.john)]
    (by decide) (by decide)

/-- C5: after any sequence of UI operations the `Total` fields of the
stored rows, in order, are exactly `1, 2, ..., n`: each accepted vote was
numbered `record count + 1`, so the sequence numbers are 1-based, strictly
increasing, with no gaps and no reuse. -/
theorem c5_sequence_numbers_contiguous (ops : List Op) :
    (run ops).map Row.total = List.range' 1 (run ops).length := by
  refine run_preserves (fun st => st.map Row.total = List.range' 1 st.length) ?_ ?_ ops
  · simp
  intro s op hP
  cases op with
  | reset => simp [step, reset_counts_data]
  | cast id c =>
    cases heq : on_button_click s id c with
    | error e => rw [step_cast_of_error s id c e heq]; exact hP
    | ok s' =>
      rw [step_cast_of_ok s id c s' heq]
      obtain ⟨-, -, -, name, hs'⟩ := on_button_click_ok_shape s id c s' heq
      subst hs'
      rw [List.map_append, hP, List.length_append]
      simp [List.range'_1_concat, Nat.add_comm]

/-- C1 (the code at the failing input): `log_vote` performs no duplicate
check of its own.  Called with voter id `"1"` on a store that already holds
a record for voter `"1"`, it appends a second record and returns normally,
leaving two records with the same voter id, where the spec requires a
`DuplicateVoterError` and no append. -/
theorem c1_log_vote_appends_despite_duplicate :
    log_vote [⟨"1", "Jane", 1⟩] "1" "John" = [⟨"1", "Jane", 1⟩, ⟨"1", "John", 2⟩] ∧
    ((log_vote [⟨"1", "Jane", 1⟩] "1" "John").filter
        (fun r => r.voterID == "1")).length = 2 := by
  decide

/-- C3 (the code at the failing input): when the append inside `log_vote`
raises `IOError`, the handler only prints, so the submission still returns
success (`.ok`) with nothing recorded — the window even shows the thank-you
label; and when the deletion inside `reset_counts` raises, `reset_votes`
still reports "Votes reset successfully!" with the stale records intact.
No `StorageError` reaches the caller on either path. -/
theorem c3_io_failure_silently_swallowed :
    on_button_click_io true [] "1" Choice.jane = .ok [] ∧
    reset_votes_io true [⟨"1", "Jane", 1⟩] =
      ([⟨"1", "Jane", 1⟩], "Votes reset successfully!") :=
  ⟨rfl, rfl⟩

/-- C6 counterexample: with no vote records, the mapping returned by
`read_results` is not empty — it already contains the default candidates
(`Jane` here), refuting "no candidate entries at all". -/
theorem c6_counterexample_defaults_present :
    dictMem (read_results []) "Jane" = true ∧
    dictMem (read_results []) "John" = true ∧
    dictGet (read_results []) "Total" 0 = 0 := by
  decide

/-- C6 as amended: with no vote records the snapshot has total 0 and the
two default candidates each mapped to 0 (not an empty mapping). -/
theorem c6_empty_store_default_snapshot :
    read_results [] = [("Jane", 0), ("John", 0), ("Total", 0)] := by
  decide

/-- C7: in every store state, `read_results` maps each default candidate to
its vote count (0 when it has none), its key set is exactly `Total`, the two
defaults, and the candidates with at least one stored vote (so a write-in
appears only once it received a vote), and a reset followed by
`read_results` yields the two defaults at 0 and total 0. -/
theorem c7_default_candidates_and_writeins (s : Store) :
    dictGet (read_results s) "Jane" 0 = countVotes s "Jane" ∧
    dictGet (read_results s) "John" 0 = countVotes s "John" ∧
    (∀ n : String, dictMem (read_results s) n =
      (("Total" == n) || ("Jane" == n) || ("John" == n) ||
        s.any (fun r => r.vote == n))) ∧
    read_results (reset_counts_data s) = [("Jane", 0), ("John", 0), ("Total", 0)] :=
  ⟨read_results_get_ne s "Jane" (by decide), read_results_get_ne s "John" (by decide),
    fun n => read_results_mem s n, rfl⟩

lemma invalid_input_outcome (s : Store) (id : String) (c : Choice) (msg : String)
    (heq : on_button_click s id c = .error (.invalidInput msg)) :
    isInvalidInputErr (on_button_click s id c) = true ∧ step s (Op.cast id c) = s :=
  ⟨by rw [heq]; rfl, by simp [step, heq]⟩

/-- C8 counterexample: when the stripped voter id is already stored, a
purely numeric free-text candidate name is rejected with the
duplicate-voter error, not an `InvalidInputError` — the duplicate check
runs before the free-text check. -/
theorem c8_counterexample_duplicate_precedes_numeric_name :
    pyIntParses "123" = true ∧
    on_button_click [⟨"1", "Jane", 1⟩] "1" (Choice.other "123") =
      .error .duplicateVoter ∧
    isInvalidInputErr (on_button_click [⟨"1", "Jane", 1⟩] "1" (Choice.other "123")) =
      false :=
  ⟨by decide, rfl, rfl⟩

/-- C8 as amended: the submission fails with an `InvalidInputError` and
records no vote whenever the voter id is not accepted by `int()` (empty ids
included), and whenever the free-text candidate name is accepted by `int()`
provided the voter id is valid and not already stored (a numeric name with
an already-used voter id fails with the duplicate-voter error instead). -/
theorem c8_numeric_inputs_rejected (s : Store) (id : String) (c : Choice)
    (h : pyIntParses (pyStrip id) = false ∨
      (pyIntParses (pyStrip id) = true ∧
        s.any (fun r => pyStrip id == r.voterID) = false ∧
        ∃ t, c = Choice.other t ∧ pyIntParses (pyStrip t) = true)) :
    isInvalidInputErr (on_button_click s id c) = true ∧ step s (Op.cast id c) = s := by
  rcases h with h | ⟨hp, hdup, t, hc, ht⟩
  · cases hv : validate_input (pyStrip id) with
    | false =>
      refine invalid_input_outcome s id c "Voter ID is required." ?_
      simp only [on_button_click, on_button_click_io, hv, Bool.not_false, if_true]
    | true =>
      refine invalid_input_outcome s id c "Voter ID must be a number." ?_
      simp only [on_button_click, on_button_click_io, hv, h, Bool.not_true,
        Bool.not_false, Bool.false_eq_true, if_false, if_true]
  · subst hc
    have hv := validate_of_parses _ hp
    have hvt := validate_of_parses _ ht
    refine invalid_input_outcome s id (Choice.other t)
      "Please enter a valid name, not a number." ?_
    simp only [on_button_click, on_button_click_io, hv, hp, hdup, rowKeys_has_voterID,
      hvt, ht, Bool.not_true, Bool.false_eq_true, if_false, if_true]

/-- Witness for C8: a non-numeric voter id, and a numeric write-in name
with a fresh numeric voter id, are both rejected without a state change. -/
theorem c8_witness :
    (isInvalidInputErr (on_button_click [] "abc" Choice.jane) = true ∧
      step [] (Op.cast "abc" Choice.jane) = []) ∧
    (isInvalidInputErr (on_button_click [] "7" (Choice.other "123")) = true ∧
      step [] (Op.cast "7" (Choice.other "123")) = []) :=
  ⟨c8_numeric_inputs_rejected [] "abc" Choice.jane (Or.inl (by decide)),
    c8_numeric_inputs_rejected [] "7" (Choice.other "123")
      (Or.inr ⟨by decide, by decide, "123", rfl, by decide⟩)⟩

/-- C9: the duplicate check compares stripped voter-id strings for textual
equality, not numeric value: any two ids that both parse as numbers, have
the same numeric value, but differ as strings are both accepted from the
fresh store and stored as two distinct voters. -/
theorem c9_textual_voter_id_comparison (a b : String)
    (h1 : pyIntParses (pyStrip a) = true) (h2 : pyIntParses (pyStrip b) = true)
    (hne : pyStrip a ≠ pyStrip b)
    (_hval : pyIntValue (pyStrip a) = pyIntValue (pyStrip b)) :
    on_button_click [] a Choice.jane = .ok [⟨pyStrip a, "Jane", 1⟩] ∧
    on_button_click [⟨pyStrip a, "Jane", 1⟩] b Choice.jane =
      .ok [⟨pyStrip a, "Jane", 1⟩, ⟨pyStrip b, "Jane", 2⟩] := by
  constructor
  · have h := on_button_click_jane_ok [] a (validate_of_parses _ h1) h1 (by simp)
    simpa using h
  · have h3 : ([⟨pyStrip a, "Jane", 1⟩] : Store).any
        (fun r => pyStrip b == r.voterID) = false := by
      simp only [List.any_cons, List.any_nil, Bool.or_false]
      exact beq_eq_false_iff_ne.mpr (Ne.symm hne)
    have h := on_button_click_jane_ok [⟨pyStrip a, "Jane", 1⟩] b
      (validate_of_parses _ h2) h2 h3
    simpa using h

/-- Witness for C9: `"1"` and `"01"` have the same numeric value, differ as
strings, and are both accepted and stored as distinct voters. -/
theorem c9_witness :
    on_button_click [] "1" Choice.jane = .ok [⟨pyStrip "1", "Jane", 1⟩] ∧
    on_button_click [⟨pyStrip "1", "Jane", 1⟩] "01" Choice.jane =
      .ok [⟨pyStrip "1", "Jane", 1⟩, ⟨pyStrip "01", "Jane", 2⟩] :=
  c9_textual_voter_id_comparison "1" "01" (by decide) (by decide) (by decide) (by decide)

/-- Deleting `data.csv` does not affect the lookup of any other filename. -/
lemma lookupFile_filter_ne (fs : FS) (f : String) (hne : f ≠ "data.csv") :
    lookupFile (fs.filter (fun p => !(p.1 == "data.csv"))) f = lookupFile fs f := by
  induction fs with
  | nil => rfl
  | cons p rest ih =>
    by_cases hd : p.1 = "data.csv"
    · rw [List.filter_cons]
      simp only [hd, beq_self_eq_true, Bool.not_true, Bool.false_eq_true, if_false]
      rw [ih]
      have hpf : (p.1 == f) = false :=
        beq_eq_false_iff_ne.mpr (by rw [hd]; exact fun hh => hne hh.symm)
      simp [lookupFile, List.find?, hpf]
    · rw [List.filter_cons]
      simp only [beq_eq_false_iff_ne.mpr hd, Bool.not_false, if_true]
      rcases hf : (p.1 == f)
      · simp only [lookupFile, List.find?, hf]
        exact ih
      · simp [lookupFile, List.find?, hf]

/-- After the deletion step no `data.csv` entry remains. -/
lemma lookupFile_filter_dataCsv (fs : FS) :
    lookupFile (fs.filter (fun p => !(p.1 == "data.csv"))) "data.csv" = none := by
  have hfind : (fs.filter (fun p => !(p.1 == "data.csv"))).find?
      (fun p => p.1 == "data.csv") = none := by
    rw [List.find?_eq_none]
    intro x hx
    have hmem := (List.mem_filter.mp hx).2
    simp only [Bool.not_eq_true'] at hmem
    simp [hmem]
  simp [lookupFile, hfind]

/-- C10: `reset_counts` removes the fixed path `data.csv` and then ensures
only the constructed filename exists.  For a manager constructed with any
other filename, an existing store under that filename keeps all its
records, `data.csv` is gone afterwards, and only the manager constructed
with `data.csv` itself gets its store recreated empty. -/
theorem c10_reset_deletes_fixed_path (fs : FS) (f : String) (rows : Store)
    (hne : f ≠ "data.csv") (hf : lookupFile fs f = some rows) :
    lookupFile (reset_counts fs f) f = some rows ∧
    lookupFile (reset_counts fs f) "data.csv" = none ∧
    lookupFile (reset_counts fs "data.csv") "data.csv" = some [] := by
  have hf1 : lookupFile (fs.filter (fun p => !(p.1 == "data.csv"))) f = some rows := by
    rw [lookupFile_filter_ne fs f hne]; exact hf
  have hany : (fs.filter (fun p => !(p.1 == "data.csv"))).any
      (fun p => p.1 == f) = true := by
    rw [List.any_eq_true]
    simp only [lookupFile, Option.map_eq_some'] at hf1
    obtain ⟨p, hp, -⟩ := hf1
    have hpred := List.find?_some hp
    exact ⟨p, List.mem_of_find?_eq_some hp, hpred⟩
  refine ⟨?_, ?_, ?_⟩
  · simp only [reset_counts, ensure_file_exists, hany, if_true]
    exact hf1
  · simp only [reset_counts, ensure_file_exists, hany, if_true]
    exact lookupFile_filter_dataCsv fs
  · have hnone := lookupFile_filter_dataCsv fs
    have hfind : (fs.filter (fun p => !(p.1 == "data.csv"))).find?
        (fun p => p.1 == "data.csv") = none := by
      simp only [lookupFile, Option.map_eq_none'] at hnone
      exact hnone
    have hanyd : (fs.filter (fun p => !(p.1 == "data.csv"))).any
        (fun p => p.1 == "data.csv") = false := by
      rw [List.any_eq_false]
      intro x hx
      have := List.find?_eq_none.mp hfind x hx
      simpa using this
    simp only [reset_counts, ensure_file_exists, hanyd, Bool.false_eq_true, if_false]
    simp [lookupFile, List.find?_append, hfind, List.find?]

/-- Witness for C10: a manager on `a.csv` resets; `a.csv` keeps its record,
`data.csv` is deleted, and a manager on `data.csv` gets an empty store. -/
theorem c10_witness :
    lookupFile (reset_counts [("a.csv", [⟨"1", "Jane", 1⟩]),
        ("data.csv", [⟨"2", "John", 1⟩])] "a.csv") "a.csv" = some [⟨"1", "Jane", 1⟩] ∧
    lookupFile (reset_counts [("a.csv", [⟨"1", "Jane", 1⟩]),
        ("data.csv", [⟨"2", "John", 1⟩])] "a.csv") "data.csv" = none ∧
    lookupFile (reset_counts [("a.csv", [⟨"1", "Jane", 1⟩]),
        ("data.csv", [⟨"2", "John", 1⟩])] "data.csv") "data.csv" = some [] :=
  c10_reset_deletes_fixed_path
    [("a.csv", [⟨"1", "Jane", 1⟩]), ("data.csv", [⟨"2", "John", 1⟩])]
    "a.csv" [⟨"1", "Jane", 1⟩] (by decide) (by decide)
